import Mathlib

/-!
Shallow embedding of `src/backend/main.py`, a FastAPI speech-transcription
backend: the one-shot upload handler `transcribe_audio` (lines 36-81) and
the websocket streaming handler `websocket_endpoint` (lines 83-136),
together with theorems checking the specification's claims about them.

Modelling conventions:
* bytes are `Nat`, byte buffers are `List Nat`;
* the filesystem is a map from path to file size in bytes — the handlers
  only ever read paths back through `os.path.exists` and
  `os.path.getsize`, never through file contents;
* the external collaborators (the ffmpeg subprocess and the Whisper
  model) are opaque and supplied through environment records: an ffmpeg
  exit code and stderr text, and a model outcome that is either an
  ordered list of segment texts or an exception message;
* `os.remove` may fail per path (`removeOk`); a failed removal leaves the
  file in place and is only logged by the code.
-/

/-- Filesystem model: each existing path maps to its size in bytes. -/
def FS : Type := String → Option Nat

/-- The empty filesystem (no temp files exist before a request). -/
def fsEmpty : FS := fun _ => none

/-- `open(path, "wb")` followed by writing `size` bytes: the path exists
afterwards with that size. -/
def fsWrite (fs : FS) (path : String) (size : Nat) : FS :=
  fun q => if q = path then some size else fs q

/-- `os.remove(path)`. -/
def fsRemove (fs : FS) (path : String) : FS :=
  fun q => if q = path then none else fs q

/-- `os.path.exists(path)`. -/
def fsExists (fs : FS) (path : String) : Bool := (fs path).isSome

/-- `os.path.getsize(path)` (defaulting to 0 on a missing path, which the
handlers never query). -/
def fsGetSize (fs : FS) (path : String) : Nat := (fs path).getD 0

/-- One iteration of the cleanup loop body (main.py lines 76-81 and
126-131): `if os.path.exists(path): try: os.remove(path) except: log`.
`removeOk` says whether `os.remove` succeeds on a path; on failure the
file stays and the failure is only logged. -/
def tryRemove (removeOk : String → Bool) (fs : FS) (path : String) : FS :=
  if fsExists fs path then (if removeOk path then fsRemove fs path else fs) else fs

/-- `for path in paths: if os.path.exists(path): try: os.remove(path) ...`. -/
def cleanupPaths (removeOk : String → Bool) (fs : FS) (paths : List String) : FS :=
  paths.foldl (tryRemove removeOk) fs

/-- Python `str.strip()` (main.py line 119): drop leading and trailing
whitespace characters. -/
def pyStrip (s : String) : String :=
  String.mk (((s.data.dropWhile Char.isWhitespace).reverse.dropWhile
    Char.isWhitespace).reverse)

/-- `" ".join(segment.text for segment in segments)` (main.py lines 66 and
116). -/
def joinSegments (segs : List String) : String := String.intercalate " " segs

/-- Line 100-101: `if len(data) % 2 != 0: data += b'\0'`. -/
def padToEven (data : List Nat) : List Nat :=
  if data.length % 2 ≠ 0 then data ++ [0] else data

/-- `np.frombuffer(data, dtype=np.int16)` (line 103): reinterpret the byte
buffer as 16-bit samples, two bytes per sample; `numpy` raises (returns
`none` here) when the buffer length is not a multiple of the item size. -/
def bytePairs : List Nat → Option (List (Nat × Nat))
  | [] => some []
  | [_] => none
  | a :: b :: rest => (bytePairs rest).map (fun ps => (a, b) :: ps)

/-- `audio_data.tobytes()` (line 109): lay the 16-bit samples back out as
bytes. -/
def samplesToBytes : List (Nat × Nat) → List Nat
  | [] => []
  | (a, b) :: ps => a :: b :: samplesToBytes ps

/-- A minimal WAV container as written by `wave.open` at lines 105-109:
fixed header fields and the sample payload written by `writeframes`. -/
structure WavFile where
  nchannels : Nat
  sampwidth : Nat
  framerate : Nat
  frames : List Nat
deriving DecidableEq

/-- The Frame Assembler (main.py lines 100-109): pad an odd-length buffer
with one zero byte, reinterpret as 16-bit samples, and write them into a
1-channel, 2-byte-sample, 16000 Hz container.  `none` models a
`np.frombuffer` fault on a truncated trailing sample. -/
def frameAssemble (data : List Nat) : Option WavFile :=
  match bytePairs (padToEven data) with
  | none => none
  | some samples =>
    some { nchannels := 1, sampwidth := 2, framerate := 16000,
           frames := samplesToBytes samples }

/-- On-disk size of the container `wave.open` writes for 1-channel 16-bit
PCM: the canonical 44-byte RIFF/fmt/data header plus the sample payload. -/
def wavContainerSize (payload : List Nat) : Nat := 44 + payload.length

/-- The Quality Gate test at line 111: `if os.path.getsize(wav_file) <
1000: continue` — accept exactly when the size check does not skip. -/
def qualityGateAccepts (size : Nat) : Bool :=
  if size < 1000 then false else true

/-- Environment of one streaming chunk: the received bytes, the opaque
model outcome for this chunk (`Except.error` models `model.transcribe`
raising), and whether `os.remove` succeeds on each path. -/
structure ChunkEnv where
  data : List Nat
  modelResult : Except String (List String)
  removeOk : String → Bool

/-- Observable outcome of processing one streaming chunk: whether
`model.transcribe` was reached, the text message sent to the peer (if
any), and the filesystem after the `finally` cleanup. -/
structure ChunkOutcome where
  modelInvoked : Bool
  sent : Option String
  fs : FS

/-- The per-chunk body of `websocket_endpoint` (main.py lines 93-131):
write the raw bytes to `temp_ws_<id>.raw`, pad to even length, reinterpret
as 16-bit samples, write the WAV container, skip if the container file is
under 1000 bytes, transcribe, and send the joined text when it is
non-empty after stripping; every exception from the body is caught and
logged, and the `finally` block removes both temp files. -/
def wsChunkStep (fs : FS) (fileId : String) (c : ChunkEnv) : ChunkOutcome :=
  let temp_file := "temp_ws_" ++ fileId ++ ".raw"
  let wav_file := "temp_ws_" ++ fileId ++ ".wav"
  let fs1 := fsWrite fs temp_file c.data.length
  match frameAssemble c.data with
  | none =>
    { modelInvoked := false, sent := none,
      fs := cleanupPaths c.removeOk fs1 [temp_file, wav_file] }
  | some w =>
    let fs2 := fsWrite fs1 wav_file (wavContainerSize w.frames)
    if fsGetSize fs2 wav_file < 1000 then
      { modelInvoked := false, sent := none,
        fs := cleanupPaths c.removeOk fs2 [temp_file, wav_file] }
    else
      match c.modelResult with
      | Except.error _ =>
        { modelInvoked := true, sent := none,
          fs := cleanupPaths c.removeOk fs2 [temp_file, wav_file] }
      | Except.ok segs =>
        if pyStrip (joinSegments segs) ≠ "" then
          { modelInvoked := true, sent := some (joinSegments segs),
            fs := cleanupPaths c.removeOk fs2 [temp_file, wav_file] }
        else
          { modelInvoked := true, sent := none,
            fs := cleanupPaths c.removeOk fs2 [temp_file, wav_file] }

/-- The receive loop of `websocket_endpoint` (lines 89-120): process each
received chunk in order with a fresh per-chunk identifier, recording for
every chunk the message it sent (if any).  The chunk list is the finite
sequence of chunks delivered before the transport-level receive fault that
ends the loop. -/
def wsSessionRun : FS → Nat → List ChunkEnv → List (Option String) × FS
  | fs, _, [] => ([], fs)
  | fs, i, c :: rest =>
    let o := wsChunkStep fs (toString i) c
    let r := wsSessionRun o.fs (i + 1) rest
    (o.sent :: r.1, r.2)

/-- The whole websocket session, starting from a filesystem with no temp
files. -/
def websocket_endpoint (chunks : List ChunkEnv) : List (Option String) × FS :=
  wsSessionRun fsEmpty 0 chunks

/-- The text messages actually pushed to the peer during a session, in
order. -/
def sessionMessages (chunks : List ChunkEnv) : List String :=
  (websocket_endpoint chunks).1.reduceOption

/-- Whether the Quality Gate passes for a chunk: the container file size
of the assembled artifact is at least 1000 bytes. -/
def gatePasses (c : ChunkEnv) : Bool :=
  qualityGateAccepts (wavContainerSize (padToEven c.data))

/-- Whether the model call for a chunk returns normally. -/
def modelOk (c : ChunkEnv) : Bool :=
  match c.modelResult with
  | Except.ok _ => true
  | Except.error _ => false

/-- The joined text of a chunk's model result (empty when the model call
raised). -/
def chunkTextOf (c : ChunkEnv) : String :=
  match c.modelResult with
  | Except.ok segs => joinSegments segs
  | Except.error _ => ""

/-- The message a chunk causes the session to send, if any: the gate must
pass, the model call must return, and the joined text must be non-empty
after stripping. -/
def chunkEmits (c : ChunkEnv) : Option String :=
  if gatePasses c then
    match c.modelResult with
    | Except.error _ => none
    | Except.ok segs =>
      if pyStrip (joinSegments segs) ≠ "" then some (joinSegments segs) else none
  else none

/-- Environment of one one-shot request: the uploaded bytes, the ffmpeg
exit code and stderr text, the size of the file ffmpeg writes on success,
the opaque model outcome, and whether `os.remove` succeeds on each path. -/
structure OneShotEnv where
  content : List Nat
  ffmpegReturncode : Nat
  ffmpegStderr : String
  transcodedSize : Nat
  modelResult : Except String (List String)
  removeOk : String → Bool

/-- Responses of the one-shot handler: the save-failure error payload
`{"error": "파일 저장 실패"}` (line 50), the caught-exception payload
`({"error": msg}, 500)` (line 73), or the success payload
`{"transcription": text}` (line 69). -/
inductive OneShotResponse where
  | saveFailed
  | errorResp (msg : String)
  | transcription (text : String)
deriving DecidableEq

/-- Observable outcome of the one-shot handler: whether the ffmpeg
subprocess and the model were invoked, the response, and the filesystem
after the `finally` cleanup. -/
structure OneShotOutcome where
  transcoderInvoked : Bool
  modelInvoked : Bool
  response : OneShotResponse
  fs : FS

/-- The one-shot handler `transcribe_audio` (main.py lines 36-81): save
the upload to `temp_input_<id>.wav`; return the save-failure payload if
that path does not exist; run ffmpeg to `temp_processed_<id>.wav`; on a
non-zero exit status raise `RuntimeError("FFmpeg 변환 실패")`, caught at
line 71 and returned as an error payload; otherwise transcribe and return
the segment texts joined by single spaces; the `finally` block removes
both temp files on every path. -/
def transcribe_audio (env : OneShotEnv) (fileId : String) : OneShotOutcome :=
  let input_path := "temp_input_" ++ fileId ++ ".wav"
  let audio_path := "temp_processed_" ++ fileId ++ ".wav"
  let fs1 := fsWrite fsEmpty input_path env.content.length
  if fsExists fs1 input_path = false then
    { transcoderInvoked := false, modelInvoked := false,
      response := OneShotResponse.saveFailed,
      fs := cleanupPaths env.removeOk fs1 [input_path, audio_path] }
  else
    if env.ffmpegReturncode ≠ 0 then
      { transcoderInvoked := true, modelInvoked := false,
        response := OneShotResponse.errorResp "FFmpeg 변환 실패",
        fs := cleanupPaths env.removeOk fs1 [input_path, audio_path] }
    else
      let fs2 := fsWrite fs1 audio_path env.transcodedSize
      match env.modelResult with
      | Except.error e =>
        { transcoderInvoked := true, modelInvoked := true,
          response := OneShotResponse.errorResp e,
          fs := cleanupPaths env.removeOk fs2 [input_path, audio_path] }
      | Except.ok segs =>
        { transcoderInvoked := true, modelInvoked := true,
          response := OneShotResponse.transcription (joinSegments segs),
          fs := cleanupPaths env.removeOk fs2 [input_path, audio_path] }

/-! ### Helper lemmas -/

theorem fsExists_write_self (fs : FS) (p : String) (s : Nat) :
    fsExists (fsWrite fs p s) p = true := by
  simp [fsExists, fsWrite]

theorem fsGetSize_write_self (fs : FS) (p : String) (s : Nat) :
    fsGetSize (fsWrite fs p s) p = s := by
  simp [fsGetSize, fsWrite]

theorem tryRemove_apply (removeOk : String → Bool) (fs : FS) (p q : String)
    (h : removeOk p = true) :
    tryRemove removeOk fs p q = if q = p then none else fs q := by
  unfold tryRemove fsRemove fsExists
  cases hfp : fs p with
  | none =>
    simp only [hfp, Option.isSome_none, Bool.false_eq_true, if_false]
    by_cases hq : q = p
    · rw [if_pos hq, hq, hfp]
    · rw [if_neg hq]
  | some v => simp [hfp, h]

theorem cleanup_pair (removeOk : String → Bool) (fs : FS) (a b : String)
    (h : ∀ p, removeOk p = true) :
    cleanupPaths removeOk fs [a, b] a = none ∧
    cleanupPaths removeOk fs [a, b] b = none := by
  unfold cleanupPaths
  simp only [List.foldl]
  constructor
  · rw [tryRemove_apply _ _ _ _ (h b)]
    by_cases hab : a = b
    · simp [hab]
    · simp [hab]
      rw [tryRemove_apply _ _ _ _ (h a)]
      simp
  · rw [tryRemove_apply _ _ _ _ (h b)]
    simp

theorem padToEven_length_even (data : List Nat) :
    (padToEven data).length % 2 = 0 := by
  unfold padToEven
  split
  · simp only [List.length_append, List.length_cons, List.length_nil]
    omega
  · omega

theorem bytePairs_roundtrip :
    ∀ b : List Nat, b.length % 2 = 0 →
      ∃ p, bytePairs b = some p ∧ samplesToBytes p = b
  | [], _ => ⟨[], rfl, rfl⟩
  | [_], h => by simp at h
  | a :: b :: rest, h => by
    have hr : rest.length % 2 = 0 := by
      simp only [List.length_cons] at h
      omega
    obtain ⟨p, hp, hs⟩ := bytePairs_roundtrip rest hr
    exact ⟨(a, b) :: p, by simp [bytePairs, hp], by simp [samplesToBytes, hs]⟩

theorem frameAssemble_eq (data : List Nat) :
    frameAssemble data =
      some { nchannels := 1, sampwidth := 2, framerate := 16000,
             frames := padToEven data } := by
  obtain ⟨p, hp, hs⟩ := bytePairs_roundtrip (padToEven data) (padToEven_length_even data)
  unfold frameAssemble
  rw [hp]
  simp [hs]

theorem wsChunkStep_run (fs : FS) (fileId : String) (c : ChunkEnv) :
    (wsChunkStep fs fileId c).sent = chunkEmits c ∧
    (wsChunkStep fs fileId c).modelInvoked = gatePasses c := by
  unfold wsChunkStep chunkEmits gatePasses
  simp only [frameAssemble_eq, fsGetSize_write_self]
  by_cases hlt : wavContainerSize (padToEven c.data) < 1000
  · simp [qualityGateAccepts, hlt]
  · simp only [qualityGateAccepts, if_neg hlt]
    cases hm : c.modelResult with
    | error e => simp [hlt]
    | ok segs =>
      by_cases hs : pyStrip (joinSegments segs) ≠ ""
      · simp [hlt, hs]
      · simp [hlt, hs]

theorem wsSessionRun_entries (fs : FS) (i : Nat) (chunks : List ChunkEnv) :
    (wsSessionRun fs i chunks).1 = chunks.map chunkEmits := by
  induction chunks generalizing fs i with
  | nil => rfl
  | cons c rest ih =>
    simp only [wsSessionRun, List.map_cons]
    rw [(wsChunkStep_run fs (toString i) c).1, ih]

theorem sessionMessages_eq (chunks : List ChunkEnv) :
    sessionMessages chunks = chunks.filterMap chunkEmits := by
  unfold sessionMessages websocket_endpoint
  rw [wsSessionRun_entries]
  simp [List.reduceOption, List.filterMap_map]

theorem chunkEmits_gate_fail (c : ChunkEnv) (h : gatePasses c = false) :
    chunkEmits c = none := by
  simp [chunkEmits, h]

theorem chunkEmits_model_error (c : ChunkEnv) (e : String)
    (h : c.modelResult = Except.error e) : chunkEmits c = none := by
  unfold chunkEmits
  rw [h]
  simp

/-! ### Claim theorems -/

/-- C4: for every input byte buffer B, the Frame Assembler produces an
artifact whose sample payload equals B exactly when the length of B is
even, and equals B followed by one zero byte when the length of B is odd. -/
theorem frame_assembler_payload (B : List Nat) :
    (B.length % 2 = 0 →
      frameAssemble B =
        some { nchannels := 1, sampwidth := 2, framerate := 16000, frames := B }) ∧
    (B.length % 2 = 1 →
      frameAssemble B =
        some { nchannels := 1, sampwidth := 2, framerate := 16000,
               frames := B ++ [0] }) := by
  constructor
  · intro h
    rw [frameAssemble_eq]
    unfold padToEven
    simp [h]
  · intro h
    rw [frameAssemble_eq]
    unfold padToEven
    simp [h]

theorem frame_assembler_payload_witness :
    frameAssemble [7] =
      some { nchannels := 1, sampwidth := 2, framerate := 16000,
             frames := [7, 0] } :=
  (frame_assembler_payload [7]).2 rfl

/-- C9: the Frame Assembler's reinterpretation of the buffer as 16-bit
samples never faults: the padded buffer always has even length, one zero
byte having been appended whenever the input length is odd. -/
theorem frame_assembler_never_faults (B : List Nat) :
    (frameAssemble B).isSome = true ∧
    (padToEven B).length % 2 = 0 ∧
    (B.length % 2 = 1 → padToEven B = B ++ [0]) := by
  refine ⟨?_, padToEven_length_even B, ?_⟩
  · rw [frameAssemble_eq]
    rfl
  · intro h
    unfold padToEven
    simp [h]

theorem frame_assembler_never_faults_witness :
    (frameAssemble [9]).isSome = true ∧ padToEven [9] = [9] ++ [0] :=
  ⟨(frame_assembler_never_faults [9]).1,
   (frame_assembler_never_faults [9]).2.2 rfl⟩

/-- C5: the Quality Gate accepts a size iff it is at least 1000 bytes
(999 rejects, 1000 accepts), and a rejected chunk is a silent skip: the
model is not invoked, no message is sent, and the session proceeds to the
remaining chunks. -/
theorem quality_gate_spec :
    (∀ size : Nat, qualityGateAccepts size = true ↔ 1000 ≤ size) ∧
    qualityGateAccepts 999 = false ∧
    qualityGateAccepts 1000 = true ∧
    (∀ (fs : FS) (fileId : String) (c : ChunkEnv), gatePasses c = false →
      (wsChunkStep fs fileId c).modelInvoked = false ∧
      (wsChunkStep fs fileId c).sent = none) ∧
    (∀ (c : ChunkEnv) (rest : List ChunkEnv), gatePasses c = false →
      sessionMessages (c :: rest) = sessionMessages rest) := by
  refine ⟨?_, rfl, rfl, ?_, ?_⟩
  · intro size
    unfold qualityGateAccepts
    by_cases h : size < 1000
    · simp [h]
    · simp [h]
      omega
  · intro fs fileId c h
    obtain ⟨h1, h2⟩ := wsChunkStep_run fs fileId c
    exact ⟨h2.trans h, h1.trans (chunkEmits_gate_fail c h)⟩
  · intro c rest h
    rw [sessionMessages_eq, sessionMessages_eq, List.filterMap_cons,
        chunkEmits_gate_fail c h]

def gateRejectChunk : ChunkEnv :=
  { data := [1, 2], modelResult := Except.ok ["x"], removeOk := fun _ => true }

theorem quality_gate_spec_witness :
    gatePasses gateRejectChunk = false ∧
    (wsChunkStep fsEmpty "0" gateRejectChunk).modelInvoked = false ∧
    (wsChunkStep fsEmpty "0" gateRejectChunk).sent = none :=
  ⟨by decide,
   (quality_gate_spec.2.2.2.1 fsEmpty "0" gateRejectChunk (by decide)).1,
   (quality_gate_spec.2.2.2.1 fsEmpty "0" gateRejectChunk (by decide)).2⟩

/-- C10: in the streaming path the quality gate is applied to the size of
the assembled container file — the fixed 44-byte header plus the padded
sample payload — so a raw chunk reaches the model iff its length padded up
to even is at least 956 bytes. -/
theorem streaming_gate_on_container_size (fs : FS) (fileId : String) (c : ChunkEnv) :
    wavContainerSize (padToEven c.data) = 44 + (padToEven c.data).length ∧
    (wsChunkStep fs fileId c).modelInvoked
      = qualityGateAccepts (wavContainerSize (padToEven c.data)) ∧
    ((wsChunkStep fs fileId c).modelInvoked = true ↔
      956 ≤ (padToEven c.data).length) := by
  refine ⟨rfl, (wsChunkStep_run fs fileId c).2, ?_⟩
  rw [(wsChunkStep_run fs fileId c).2]
  unfold gatePasses qualityGateAccepts wavContainerSize
  by_cases h : 44 + (padToEven c.data).length < 1000
  · simp [h]
    omega
  · simp [h]
    omega

theorem chunkEmits_some (c : ChunkEnv) (hg : gatePasses c = true)
    (hok : modelOk c = true) (hne : pyStrip (chunkTextOf c) ≠ "") :
    chunkEmits c = some (chunkTextOf c) := by
  unfold chunkEmits
  cases hm : c.modelResult with
  | error e =>
    unfold modelOk at hok
    rw [hm] at hok
    simp at hok
  | ok segs =>
    unfold chunkTextOf at hne
    rw [hm] at hne
    simp only [hg, if_pos, hm]
    unfold chunkTextOf
    rw [hm]
    simp [hne]

theorem filterMap_chunkEmits (chunks : List ChunkEnv)
    (h : ∀ c ∈ chunks, gatePasses c = true →
      modelOk c = true ∧ pyStrip (chunkTextOf c) ≠ "") :
    chunks.filterMap chunkEmits = (chunks.filter gatePasses).map chunkTextOf := by
  induction chunks with
  | nil => rfl
  | cons c rest ih =>
    have hrest : ∀ x ∈ rest, gatePasses x = true →
        modelOk x = true ∧ pyStrip (chunkTextOf x) ≠ "" :=
      fun x hx => h x (List.mem_cons_of_mem _ hx)
    rw [List.filterMap_cons, List.filter_cons]
    by_cases hg : gatePasses c = true
    · obtain ⟨hok, hne⟩ := h c (List.mem_cons_self _ _) hg
      rw [chunkEmits_some c hg hok hne]
      simp [hg, ih hrest]
    · have hg0 : gatePasses c = false := by
        cases hgb : gatePasses c
        · rfl
        · exact absurd hgb hg
      rw [chunkEmits_gate_fail c hg0]
      simp [hg0, ih hrest]

/-- C3: a streaming session whose gate-passing chunks all yield text that
is non-empty after stripping sends exactly one message per gate-passing
chunk, in chunk order, and chunks rejected by the gate or yielding
empty text produce no message. -/
theorem streaming_k_messages (chunks : List ChunkEnv)
    (h : ∀ c ∈ chunks, gatePasses c = true →
      modelOk c = true ∧ pyStrip (chunkTextOf c) ≠ "") :
    sessionMessages chunks = (chunks.filter gatePasses).map chunkTextOf ∧
    (sessionMessages chunks).length = (chunks.filter gatePasses).length := by
  have main := (sessionMessages_eq chunks).trans (filterMap_chunkEmits chunks h)
  exact ⟨main, by rw [main, List.length_map]⟩

def chunkPass : ChunkEnv :=
  { data := List.replicate 956 1, modelResult := Except.ok ["hi"],
    removeOk := fun _ => true }

def chunkSmall : ChunkEnv :=
  { data := [1, 2], modelResult := Except.ok ["x"], removeOk := fun _ => true }

set_option maxRecDepth 4000 in
theorem gatePasses_chunkPass : gatePasses chunkPass = true := by
  have hlen : chunkPass.data.length = 956 := List.length_replicate _ _
  simp only [gatePasses, qualityGateAccepts, wavContainerSize, padToEven]
  norm_num [hlen]

set_option maxRecDepth 4000 in
theorem streaming_k_messages_witness :
    sessionMessages [chunkPass, chunkSmall] = ["hi"] := by
  have hyp : ∀ c ∈ [chunkPass, chunkSmall], gatePasses c = true →
      modelOk c = true ∧ pyStrip (chunkTextOf c) ≠ "" := by
    intro c hc
    simp only [List.mem_cons, List.not_mem_nil, or_false] at hc
    rcases hc with rfl | rfl
    · intro _
      exact ⟨rfl, by decide⟩
    · intro hg
      exact absurd hg (by decide)
  have h := (streaming_k_messages [chunkPass, chunkSmall] hyp).1
  rw [h, List.filter_cons, List.filter_cons, gatePasses_chunkPass]
  have hs : gatePasses chunkSmall = false := by decide
  rw [hs]
  decide

/-- C7: a per-chunk transcription failure is caught, the chunk is skipped
(no message for it), and the session continues: every chunk of the session
is still processed, and the messages are those of the surrounding chunks. -/
theorem streaming_error_chunk_skipped (pre post : List ChunkEnv) (c : ChunkEnv)
    (e : String) (h : c.modelResult = Except.error e) :
    (websocket_endpoint (pre ++ c :: post)).1.length
      = pre.length + 1 + post.length ∧
    sessionMessages (pre ++ c :: post) = sessionMessages pre ++ sessionMessages post := by
  constructor
  · unfold websocket_endpoint
    rw [wsSessionRun_entries]
    simp only [List.length_map, List.length_append, List.length_cons]
    omega
  · rw [sessionMessages_eq, sessionMessages_eq, sessionMessages_eq,
        List.filterMap_append, List.filterMap_cons, chunkEmits_model_error c e h]

def chunkErr : ChunkEnv :=
  { data := List.replicate 956 1, modelResult := Except.error "model crashed",
    removeOk := fun _ => true }

set_option maxRecDepth 4000 in
theorem streaming_error_chunk_skipped_witness :
    sessionMessages [chunkErr] = [] ∧
    (websocket_endpoint [chunkErr]).1.length = 1 := by
  have h := streaming_error_chunk_skipped [] [] chunkErr "model crashed" rfl
  constructor
  · have h2 := h.2
    simpa using h2
  · have h1 := h.1
    simpa using h1

/-- C8: when ffmpeg exits 0 and the model returns segments, the one-shot
response is the segment texts joined with a single space, in
model-returned order, with no reordering and no deduplication, returned
verbatim even if empty or whitespace-only. -/
theorem oneshot_joined_text (env : OneShotEnv) (fileId : String)
    (segs : List String) (h0 : env.ffmpegReturncode = 0)
    (h1 : env.modelResult = Except.ok segs) :
    (transcribe_audio env fileId).response
      = OneShotResponse.transcription (String.intercalate " " segs) := by
  unfold transcribe_audio joinSegments
  simp [fsExists_write_self, h0, h1]

def envJoin : OneShotEnv :=
  { content := [1, 2, 3], ffmpegReturncode := 0, ffmpegStderr := "",
    transcodedSize := 64044, modelResult := Except.ok [" Hello", "", " world"],
    removeOk := fun _ => true }

theorem oneshot_joined_text_witness :
    (transcribe_audio envJoin "f").response
      = OneShotResponse.transcription " Hello   world" := by
  have h := oneshot_joined_text envJoin "f" [" Hello", "", " world"] rfl rfl
  rw [h]
  rfl

def envTranscodeFail : OneShotEnv :=
  { content := [1, 2, 3], ffmpegReturncode := 1, ffmpegStderr := "boom",
    transcodedSize := 0, modelResult := Except.ok ["hi"],
    removeOk := fun _ => true }

/-- C2 counterexample: when ffmpeg exits non-zero with stderr "boom", the
returned payload is the fixed message "FFmpeg 변환 실패" (the stderr text is
only printed to the server console), so the payload does not contain the
transcoder's diagnostic text, refuting the claim as stated. -/
theorem transcode_error_payload_counterexample :
    (transcribe_audio envTranscodeFail "f").response
      = OneShotResponse.errorResp "FFmpeg 변환 실패" ∧
    envTranscodeFail.ffmpegStderr = "boom" ∧
    ¬ ("boom".toList <:+: "FFmpeg 변환 실패".toList) := by
  refine ⟨?_, rfl, by decide⟩
  rfl

/-- C2 (amended): when the transcoder exits non-zero, the handler returns
an error whose payload is the fixed message "FFmpeg 변환 실패" — the
stderr diagnostic is logged to the console but not included in the
payload — and the model is never invoked. -/
theorem transcode_error_fixed_payload (env : OneShotEnv) (fileId : String)
    (h : env.ffmpegReturncode ≠ 0) :
    (transcribe_audio env fileId).response
      = OneShotResponse.errorResp "FFmpeg 변환 실패" ∧
    (transcribe_audio env fileId).modelInvoked = false := by
  unfold transcribe_audio
  simp [fsExists_write_self, h]

theorem transcode_error_fixed_payload_witness :
    (transcribe_audio envTranscodeFail "g").response
      = OneShotResponse.errorResp "FFmpeg 변환 실패" ∧
    (transcribe_audio envTranscodeFail "g").modelInvoked = false :=
  transcode_error_fixed_payload envTranscodeFail "g" (by decide)

def envEmptyUpload : OneShotEnv :=
  { content := [], ffmpegReturncode := 0, ffmpegStderr := "",
    transcodedSize := 64044, modelResult := Except.ok ["hi"],
    removeOk := fun _ => true }

/-- C1 counterexample: with an empty uploaded file the handler still
invokes the transcoder and does not return the save-failure (UploadError)
payload — the code checks only `os.path.exists`, and writing the upload
creates the (empty) file — refuting the claim as stated. -/
theorem empty_upload_counterexample :
    envEmptyUpload.content = [] ∧
    (transcribe_audio envEmptyUpload "f").transcoderInvoked = true ∧
    (transcribe_audio envEmptyUpload "f").response
      ≠ OneShotResponse.saveFailed := by
  refine ⟨rfl, rfl, ?_⟩
  decide

/-- C1 (amended): an empty uploaded file is saved, the saved (empty) file
exists, so the existence check passes: the handler proceeds to invoke the
transcoder, and the UploadError-classified save-failure response is not
returned. -/
theorem empty_upload_still_transcodes (env : OneShotEnv) (fileId : String)
    (_h : env.content = []) :
    (transcribe_audio env fileId).transcoderInvoked = true ∧
    (transcribe_audio env fileId).response ≠ OneShotResponse.saveFailed := by
  unfold transcribe_audio
  by_cases hr : env.ffmpegReturncode ≠ 0
  · simp [fsExists_write_self, hr]
  · cases hm : env.modelResult with
    | error e => simp [fsExists_write_self, hr, hm]
    | ok segs => simp [fsExists_write_self, hr, hm]

theorem empty_upload_still_transcodes_witness :
    envEmptyUpload.content = [] ∧
    (transcribe_audio envEmptyUpload "g").transcoderInvoked = true :=
  ⟨rfl, (empty_upload_still_transcodes envEmptyUpload "g" rfl).1⟩

theorem fsExists_cleanup_pair (removeOk : String → Bool) (fs : FS)
    (a b : String) (h : ∀ p, removeOk p = true) :
    fsExists (cleanupPaths removeOk fs [a, b]) a = false ∧
    fsExists (cleanupPaths removeOk fs [a, b]) b = false := by
  obtain ⟨h1, h2⟩ := cleanup_pair removeOk fs a b h
  unfold fsExists
  rw [h1, h2]
  exact ⟨rfl, rfl⟩

theorem transcribe_audio_fs (env : OneShotEnv) (fileId : String) :
    ∃ base, (transcribe_audio env fileId).fs
      = cleanupPaths env.removeOk base
          ["temp_input_" ++ fileId ++ ".wav",
           "temp_processed_" ++ fileId ++ ".wav"] := by
  unfold transcribe_audio
  dsimp only
  split
  · exact ⟨_, rfl⟩
  · split
    · exact ⟨_, rfl⟩
    · split <;> exact ⟨_, rfl⟩

theorem wsChunkStep_fs (fs : FS) (fileId : String) (c : ChunkEnv) :
    ∃ base, (wsChunkStep fs fileId c).fs
      = cleanupPaths c.removeOk base
          ["temp_ws_" ++ fileId ++ ".raw", "temp_ws_" ++ fileId ++ ".wav"] := by
  unfold wsChunkStep
  dsimp only
  split
  · exact ⟨_, rfl⟩
  · split
    · exact ⟨_, rfl⟩
    · split
      · exact ⟨_, rfl⟩
      · split <;> exact ⟨_, rfl⟩

/-- C6: on every exit path of the one-shot handler and of a streaming
chunk step, the temporary files created by that step do not exist
afterwards, provided removal itself succeeds; and a removal failure is
never escalated — the response (one-shot) and the sent message
(streaming) do not depend on whether removal succeeds. -/
theorem cleanup_guaranteed :
    (∀ (env : OneShotEnv) (fileId : String), (∀ p, env.removeOk p = true) →
      fsExists (transcribe_audio env fileId).fs
        ("temp_input_" ++ fileId ++ ".wav") = false ∧
      fsExists (transcribe_audio env fileId).fs
        ("temp_processed_" ++ fileId ++ ".wav") = false) ∧
    (∀ (fs : FS) (fileId : String) (c : ChunkEnv), (∀ p, c.removeOk p = true) →
      fsExists (wsChunkStep fs fileId c).fs
        ("temp_ws_" ++ fileId ++ ".raw") = false ∧
      fsExists (wsChunkStep fs fileId c).fs
        ("temp_ws_" ++ fileId ++ ".wav") = false) ∧
    (∀ (env : OneShotEnv) (fileId : String) (rOk : String → Bool),
      (transcribe_audio { env with removeOk := rOk } fileId).response
        = (transcribe_audio env fileId).response) ∧
    (∀ (fs : FS) (fileId : String) (c : ChunkEnv) (rOk : String → Bool),
      (wsChunkStep fs fileId { c with removeOk := rOk }).sent
        = (wsChunkStep fs fileId c).sent) := by
  refine ⟨?_, ?_, ?_, ?_⟩
  · intro env fileId h
    obtain ⟨base, hb⟩ := transcribe_audio_fs env fileId
    rw [hb]
    exact fsExists_cleanup_pair _ _ _ _ h
  · intro fs fileId c h
    obtain ⟨base, hb⟩ := wsChunkStep_fs fs fileId c
    rw [hb]
    exact fsExists_cleanup_pair _ _ _ _ h
  · intro env fileId rOk
    by_cases hr : env.ffmpegReturncode ≠ 0
    · simp [transcribe_audio, fsExists_write_self, hr]
    · cases hm : env.modelResult with
      | error e => simp [transcribe_audio, fsExists_write_self, hr, hm]
      | ok segs => simp [transcribe_audio, fsExists_write_self, hr, hm]
  · intro fs fileId c rOk
    rw [(wsChunkStep_run fs fileId { c with removeOk := rOk }).1,
        (wsChunkStep_run fs fileId c).1]
    rfl

def envCleanup : OneShotEnv :=
  { content := [1], ffmpegReturncode := 0, ffmpegStderr := "",
    transcodedSize := 2000, modelResult := Except.ok ["ok"],
    removeOk := fun _ => true }

def chunkCleanup : ChunkEnv :=
  { data := [1, 2], modelResult := Except.ok ["ok"], removeOk := fun _ => true }

theorem cleanup_guaranteed_witness :
    fsExists (transcribe_audio envCleanup "f").fs
      ("temp_input_" ++ "f" ++ ".wav") = false ∧
    fsExists (wsChunkStep fsEmpty "0" chunkCleanup).fs
      ("temp_ws_" ++ "0" ++ ".raw") = false :=
  ⟨(cleanup_guaranteed.1 envCleanup "f" (fun _ => rfl)).1,
   (cleanup_guaranteed.2.1 fsEmpty "0" chunkCleanup (fun _ => rfl)).1⟩
